import Mathlib

/-!
Verification of the ContentFlow content-pipeline repository
(`research_agent.py`, `content_creator.py`, `analytics_agent.py`).

Python strings are modelled as `List Char` (Python `len`/slicing count code
points, as `List Char` does).  Python `dict`s appear as ordered association
lists, matching insertion-ordered iteration.  External effects (model calls,
search transports, clock) are passed in as explicit parameters of type
`Except PyErr _`, so each embedded function is the pure part of the Python
function, parameterised by the outcome of its external calls.
-/

/-- Python strings, as lists of unicode code points. -/
abbrev PyStr := List Char

/-- Coerce a Lean string literal to the Python-string model. -/
def pstr (s : String) : PyStr := s.toList

/-- Python exceptions that matter to the embedded code. -/
inductive PyErr where
  | keyError (key : PyStr)
  | nameError (name : PyStr)
  | callError (msg : PyStr)
deriving DecidableEq

/-- Python `str(e)` for the exceptions above (the message text). -/
def pyErrStr : PyErr → PyStr
  | .keyError k => k
  | .nameError n => n
  | .callError m => m

/-- Python `str.strip()` / `str.strip(chars)` generalised over a predicate:
remove matching characters from both ends. -/
def pyStripP (p : Char → Bool) (s : PyStr) : PyStr :=
  ((s.dropWhile p).reverse.dropWhile p).reverse

/-- Python `str.strip()` (whitespace at both ends). -/
def pyStrip (s : PyStr) : PyStr := pyStripP Char.isWhitespace s

/-- Python `str.strip(chars)`: strip any of the given characters from both ends. -/
def pyStripChars (cs : PyStr) (s : PyStr) : PyStr := pyStripP (cs.contains ·) s

/-- Python `str.split()` with no separator: split on whitespace runs,
discarding empty fields. -/
def pySplitWs (s : PyStr) : List PyStr :=
  (s.splitOnP Char.isWhitespace).filter (· ≠ [])

/-- Python `sep.join(xs)`. -/
def pyJoin (sep : PyStr) (xs : List PyStr) : PyStr := List.intercalate sep xs

/-- Python `sub in s` (substring containment). -/
def pyContains (s sub : PyStr) : Bool :=
  match s with
  | [] => sub = []
  | _ :: rest => sub.isPrefixOf s || pyContains rest sub

/-- Worker for `pyReplace`, structurally recursive on a fuel that always
equals the remaining length (so the fuel never runs out). -/
def pyReplaceGo (pat repl : PyStr) : Nat → PyStr → PyStr
  | 0, s => s
  | _ + 1, [] => []
  | fuel + 1, c :: rest =>
    if pat ≠ [] ∧ pat.isPrefixOf (c :: rest) then
      repl ++ pyReplaceGo pat repl fuel (rest.drop (pat.length - 1))
    else
      c :: pyReplaceGo pat repl fuel rest

/-- Python `s.replace(pat, repl)` for a non-empty pattern: leftmost,
non-overlapping replacement of every occurrence. -/
def pyReplace (pat repl : PyStr) (s : PyStr) : PyStr :=
  pyReplaceGo pat repl s.length s

/-- Worker for `pySplitSub`, structurally recursive the same way. -/
def pySplitSubGo (sep : PyStr) : Nat → PyStr → List PyStr
  | 0, _ => [[]]
  | _ + 1, [] => [[]]
  | fuel + 1, c :: rest =>
    if sep ≠ [] ∧ sep.isPrefixOf (c :: rest) then
      [] :: pySplitSubGo sep fuel (rest.drop (sep.length - 1))
    else
      match pySplitSubGo sep fuel rest with
      | [] => [[c]]
      | seg :: segs => (c :: seg) :: segs

/-- Python `s.split(sep)` for a non-empty separator substring. -/
def pySplitSub (sep : PyStr) (s : PyStr) : List PyStr :=
  pySplitSubGo sep s.length s

/-- Python `str.title()`: uppercase every character that starts an
alphabetic run, lowercase the rest (ASCII case mapping). -/
def pyTitleGo (prevAlpha : Bool) : PyStr → PyStr
  | [] => []
  | c :: rest =>
    (if c.isAlpha then (if prevAlpha then c.toLower else c.toUpper) else c)
      :: pyTitleGo c.isAlpha rest

/-- Python `str.title()`. -/
def pyTitle (s : PyStr) : PyStr := pyTitleGo false s

/-- Python `str.lower()` (ASCII case mapping, which covers the inputs used). -/
def pyLower (s : PyStr) : PyStr := s.map Char.toLower

/-! ### A strict JSON parser modelling Python `json.loads`

`json.loads` accepts standard JSON plus the literals `NaN`, `Infinity` and
`-Infinity`.  Numeric lexemes are kept as text: no claim inspects numeric
values, only parse success/failure and the structure of arrays/strings.
Surrogate `\uXXXX` escapes are mapped code-unit-wise (no pair combining),
which no claim input exercises. -/

/-- JSON values as produced by `json.loads`. -/
inductive Json where
  | null
  | bool (b : Bool)
  | num (lexeme : PyStr)
  | str (s : PyStr)
  | arr (elems : List Json)
  | obj (fields : List (PyStr × Json))

/-- JSON insignificant whitespace (exactly the four characters
`json.loads` skips). -/
def jsonSkipWs : PyStr → PyStr
  | c :: rest =>
    if c = ' ' ∨ c = '\t' ∨ c = '\n' ∨ c = '\r' then jsonSkipWs rest else c :: rest
  | [] => []

/-- Hex digit value, if any. -/
def hexVal (c : Char) : Option Nat :=
  if '0' ≤ c ∧ c ≤ '9' then some (c.toNat - '0'.toNat)
  else if 'a' ≤ c ∧ c ≤ 'f' then some (c.toNat - 'a'.toNat + 10)
  else if 'A' ≤ c ∧ c ≤ 'F' then some (c.toNat - 'A'.toNat + 10)
  else none

/-- Parse the body of a JSON string (after the opening quote), returning the
decoded characters and the input remaining after the closing quote.
Raw control characters are rejected (strict mode). -/
def parseJStr (fuel : Nat) (s : PyStr) : Option (PyStr × PyStr) :=
  match fuel with
  | 0 => none
  | fuel + 1 =>
    match s with
    | [] => none
    | '"' :: rest => some ([], rest)
    | '\\' :: e :: rest =>
      let plain (c : Char) : Option (PyStr × PyStr) :=
        (parseJStr fuel rest).map (fun (cs, r) => (c :: cs, r))
      match e with
      | '"' => plain '"'
      | '\\' => plain '\\'
      | '/' => plain '/'
      | 'b' => plain '\x08'
      | 'f' => plain '\x0c'
      | 'n' => plain '\n'
      | 'r' => plain '\r'
      | 't' => plain '\t'
      | 'u' =>
        match rest with
        | h1 :: h2 :: h3 :: h4 :: rest' =>
          match hexVal h1, hexVal h2, hexVal h3, hexVal h4 with
          | some v1, some v2, some v3, some v4 =>
            (parseJStr fuel rest').map
              (fun (cs, r) => (Char.ofNat (((v1 * 16 + v2) * 16 + v3) * 16 + v4) :: cs, r))
          | _, _, _, _ => none
        | _ => none
      | _ => none
    | c :: rest =>
      if c.toNat < 0x20 then none
      else (parseJStr fuel rest).map (fun (cs, r) => (c :: cs, r))

/-- One or more decimal digits, returning them and the rest. -/
def parseDigits1 (s : PyStr) : Option (PyStr × PyStr) :=
  match s.span Char.isDigit with
  | (ds, rest) => if ds = [] then none else some (ds, rest)

/-- Parse a JSON number lexeme (grammar of Python's json number regex):
`-?(0|[1-9][0-9]*)(\.[0-9]+)?([eE][+-]?[0-9]+)?`.  The fractional and
exponent parts are only consumed when complete, as the regex backtracks. -/
def parseJNum (s : PyStr) : Option (PyStr × PyStr) :=
  let (neg, s1) := match s with
    | '-' :: r => ([ '-' ], r)
    | _ => ([], s)
  match s1 with
  | [] => none
  | c :: _ =>
    if ¬ c.isDigit then none
    else
      let (ip, s2) :=
        if c = '0' then ([c], s1.drop 1)
        else (s1.span Char.isDigit)
      let (fp, s3) :=
        match s2 with
        | '.' :: r =>
          match parseDigits1 r with
          | some (ds, r') => ('.' :: ds, r')
          | none => ([], s2)
        | _ => ([], s2)
      let (ep, s4) :=
        match s3 with
        | e :: r =>
          if e = 'e' ∨ e = 'E' then
            let (sgn, r1) := match r with
              | '+' :: r' => (['+'], r')
              | '-' :: r' => (['-'], r')
              | _ => ([], r)
            match parseDigits1 r1 with
            | some (ds, r') => (e :: (sgn ++ ds), r')
            | none => ([], s3)
          else ([], s3)
        | _ => ([], s3)
      some (neg ++ ip ++ fp ++ ep, s4)

mutual

/-- Parse one JSON value at the head of the input (no leading whitespace). -/
def parseJVal (fuel : Nat) (s : PyStr) : Option (Json × PyStr) :=
  match fuel with
  | 0 => none
  | fuel + 1 =>
    match s with
    | [] => none
    | 'n' :: 'u' :: 'l' :: 'l' :: rest => some (.null, rest)
    | 't' :: 'r' :: 'u' :: 'e' :: rest => some (.bool true, rest)
    | 'f' :: 'a' :: 'l' :: 's' :: 'e' :: rest => some (.bool false, rest)
    | 'N' :: 'a' :: 'N' :: rest => some (.num (pstr "NaN"), rest)
    | 'I' :: 'n' :: 'f' :: 'i' :: 'n' :: 'i' :: 't' :: 'y' :: rest =>
      some (.num (pstr "Infinity"), rest)
    | '-' :: 'I' :: 'n' :: 'f' :: 'i' :: 'n' :: 'i' :: 't' :: 'y' :: rest =>
      some (.num (pstr "-Infinity"), rest)
    | '"' :: rest => (parseJStr fuel rest).map (fun (cs, r) => (.str cs, r))
    | '\x7b' :: rest =>
      match jsonSkipWs rest with
      | '\x7d' :: r => some (.obj [], r)
      | r => (parseJFields fuel r).map (fun (fs, r') => (.obj fs, r'))
    | '[' :: rest =>
      match jsonSkipWs rest with
      | ']' :: r => some (.arr [], r)
      | r => (parseJElems fuel r).map (fun (es, r') => (.arr es, r'))
    | _ => (parseJNum s).map (fun (lx, r) => (.num lx, r))

/-- Parse a comma-separated, non-empty list of array elements and the
closing bracket. -/
def parseJElems (fuel : Nat) (s : PyStr) : Option (List Json × PyStr) :=
  match fuel with
  | 0 => none
  | fuel + 1 =>
    match parseJVal fuel s with
    | none => none
    | some (v, r) =>
      match jsonSkipWs r with
      | ',' :: r2 =>
        (parseJElems fuel (jsonSkipWs r2)).map (fun (vs, r3) => (v :: vs, r3))
      | ']' :: r2 => some ([v], r2)
      | _ => none

/-- Parse a comma-separated, non-empty list of object fields and the
closing brace. -/
def parseJFields (fuel : Nat) (s : PyStr) : Option (List (PyStr × Json) × PyStr) :=
  match fuel with
  | 0 => none
  | fuel + 1 =>
    match s with
    | '"' :: rest =>
      match parseJStr fuel rest with
      | none => none
      | some (key, r) =>
        match jsonSkipWs r with
        | ':' :: r2 =>
          match parseJVal fuel (jsonSkipWs r2) with
          | none => none
          | some (v, r3) =>
            match jsonSkipWs r3 with
            | ',' :: r4 =>
              (parseJFields fuel (jsonSkipWs r4)).map
                (fun (fs, r5) => ((key, v) :: fs, r5))
            | '\x7d' :: r4 => some ([(key, v)], r4)
            | _ => none
        | _ => none
    | _ => none

end

/-- Python `json.loads`: parse one JSON document, requiring only
whitespace after it; `none` models a raised `json.JSONDecodeError`. -/
def jsonLoads (s : PyStr) : Option Json :=
  match parseJVal (2 * s.length + 2) (jsonSkipWs s) with
  | some (v, rest) => if jsonSkipWs rest = [] then some v else none
  | none => none

example : jsonLoads (pstr "[\"A\", \"B\"]") = some (.arr [.str (pstr "A"), .str (pstr "B")]) := by
  rfl

example : jsonLoads (pstr "```json") = none := by rfl

example : jsonLoads (pstr "\"hello\"") = some (.str (pstr "hello")) := by rfl

example : jsonLoads (pstr " -12.5e+3 ") = some (.num (pstr "-12.5e+3")) := by rfl

example : jsonLoads (pstr "1.") = none := by rfl

/-! ### `research_agent.py` -/

/-- A normalized source record, as the connectors build them (`dict`
with optional keys; `.get` reads use the `Option` defaults). -/
structure SourceItem where
  title : Option PyStr := none
  snippet : Option PyStr := none
  summary : Option PyStr := none
  url : Option PyStr := none
  source : Option PyStr := none
  authors : List PyStr := []
  published : Option PyStr := none
  categories : List PyStr := []

/-- The `sources` mapping: an insertion-ordered dict from source kind to
its list of items. -/
abbrev SourcesMap := List (PyStr × List SourceItem)

/-- Python `item[key]` on an optional field: raises `KeyError` when absent. -/
def pyGetItem (key : PyStr) : Option PyStr → Except PyErr PyStr
  | some v => .ok v
  | none => .error (.keyError key)

/-- `ResearchAgent.extract_insights`, the `all_content` digest loop:
`"Paper: {title}\n{summary}"` for arxiv items, `"{title}\n{snippet}"`
otherwise; a missing key raises. -/
def itemDigest (source_type : PyStr) (item : SourceItem) : Except PyErr PyStr :=
  if source_type = pstr "arxiv" then do
    let t ← pyGetItem (pstr "title") item.title
    let s ← pyGetItem (pstr "summary") item.summary
    pure (pstr "Paper: " ++ t ++ [ '\n' ] ++ s)
  else do
    let t ← pyGetItem (pstr "title") item.title
    let s ← pyGetItem (pstr "snippet") item.snippet
    pure (t ++ [ '\n' ] ++ s)

/-- The full `all_content` list of `extract_insights`, in iteration order;
the first missing key aborts, as in Python. -/
def allContent (sources : SourcesMap) : Except PyErr (List PyStr) := do
  let chunks ← sources.mapM (fun kv => kv.2.mapM (itemDigest kv.1))
  pure chunks.flatten

/-- The line-splitting fallback of `extract_insights`:
`[line.strip('- •').strip() for line in content.split('\n') if line.strip()]`. -/
def lineSplitInsights (content : PyStr) : List PyStr :=
  ((content.splitOn '\n').filter (fun l => pyStrip l ≠ [])).map
    (fun l => pyStrip (pyStripChars (pstr "- •") l))

/-- The fixed 3-item default returned when the model call raises. -/
def defaultInsights : List Json :=
  [.str (pstr "Research data collected successfully"),
   .str (pstr "Multiple sources analyzed"),
   .str (pstr "Content ready for generation")]

/-- `ResearchAgent.extract_insights`.  `modelOutcome` is the outcome of the
`chat.completions.create` call (reply text, or a raised error).  The result
is `.ok none` when the Python function falls off the end and returns `None`:
that happens when `json.loads` succeeds but yields a non-list.  Elements of
a parsed JSON array are returned as-is (they need not be strings). -/
def extract_insights (sources : SourcesMap) (modelOutcome : Except PyErr PyStr) :
    Except PyErr (Option (List Json)) :=
  match allContent sources with
  | .error e => .error e
  | .ok _all_content =>
    -- the prompt is built from the first 10 items of `_all_content` and only
    -- feeds the external model call, whose outcome is `modelOutcome`
    match modelOutcome with
    | .error _e => .ok (some defaultInsights)
    | .ok content =>
      match jsonLoads content with
      | some (.arr insights) => .ok (some (insights.take 7))
      | some _ => .ok none
      | none => .ok (some ((lineSplitInsights content).map .str |>.take 7))

/-- A node of the knowledge graph. -/
structure KGNode where
  id : Nat
  label : PyStr
  type : PyStr
  url : PyStr

/-- The knowledge-graph dict built by `create_knowledge_graph`. -/
structure KnowledgeGraph where
  nodes : List KGNode
  edges : List Nat
  created_at : PyStr
  total_sources : Nat

/-- The node rows for the items of one source kind, starting at id `n`
(`node_id` increments once per appended node). -/
def kgNodesOfItems (source_type : PyStr) : List SourceItem → Nat → List KGNode
  | [], _ => []
  | item :: rest, n =>
    { id := n
      label := item.title.getD (pstr "Unknown")
      type := source_type
      url := item.url.getD [] } :: kgNodesOfItems source_type rest (n + 1)

/-- The node list over all source kinds in iteration order, taking the
first 5 items of each kind. -/
def kgNodes : SourcesMap → Nat → List KGNode
  | [], _ => []
  | (source_type, items) :: rest, n =>
    kgNodesOfItems source_type (items.take 5) n
      ++ kgNodes rest (n + (items.take 5).length)

/-- `ResearchAgent.create_knowledge_graph`; `now` is the
`datetime.now().isoformat()` timestamp supplied by the clock. -/
def create_knowledge_graph (sources : SourcesMap) (now : PyStr) : KnowledgeGraph :=
  { nodes := kgNodes sources 0
    edges := []
    created_at := now
    total_sources := (sources.map (fun kv => kv.2.length)).sum }

/-- A paper object yielded by the `arxiv` library. -/
structure ArxivPaper where
  title : PyStr
  authors : List PyStr
  summary : PyStr
  published : PyStr
  pdf_url : PyStr
  categories : List PyStr

/-- A result dict yielded by `ddgs.text` (keys read with `.get(_, "")`). -/
structure DDGResult where
  title : Option PyStr := none
  body : Option PyStr := none
  href : Option PyStr := none

/-- `ResearchAgent.search_arxiv`.  `transport` is the outcome of iterating
`arxiv.Search(query, max_results, ...).results()`; the library yields at
most `max_results` papers (stated as a hypothesis where needed).  Any raised
error is caught and yields `[]`. -/
def search_arxiv (_query : PyStr) (_max_results : Nat)
    (transport : Except PyErr (List ArxivPaper)) : List SourceItem :=
  match transport with
  | .error _e => []
  | .ok papers =>
    papers.map (fun p =>
      { title := some p.title
        authors := p.authors
        summary := some (p.summary.take 500 ++ pstr "...")
        published := some p.published
        url := some p.pdf_url
        categories := p.categories })

/-- `ResearchAgent.search_web`: normalizes `ddgs.text(query, max_results)`
results, catching any raised error into `[]`. -/
def search_web (_query : PyStr) (_max_results : Nat)
    (transport : Except PyErr (List DDGResult)) : List SourceItem :=
  match transport with
  | .error _e => []
  | .ok rs =>
    rs.map (fun r =>
      { title := some (r.title.getD [])
        snippet := some (r.body.getD [])
        url := some (r.href.getD [])
        source := some (pstr "web") })

/-- `ResearchAgent.search_youtube`: a web search on
`site:youtube.com {query}`, tagged `"youtube"`, same error policy. -/
def search_youtube (_query : PyStr) (_max_results : Nat)
    (transport : Except PyErr (List DDGResult)) : List SourceItem :=
  match transport with
  | .error _e => []
  | .ok rs =>
    rs.map (fun r =>
      { title := some (r.title.getD [])
        snippet := some (r.body.getD [])
        url := some (r.href.getD [])
        source := some (pstr "youtube") })

/-- The names bound at module level in `research_agent.py` by its import
statements (`arxiv`, `DDGS`, `openai`, the `typing` names, `requests`,
`datetime`, `json`). -/
def researchAgentModuleNames : List PyStr :=
  [pstr "arxiv", pstr "DDGS", pstr "openai", pstr "List", pstr "Dict",
   pstr "Optional", pstr "requests", pstr "datetime", pstr "json"]

/-- Python global-name resolution in `research_agent.py`: an unbound name
raises `NameError`. -/
def researchAgentResolve (name : PyStr) : Except PyErr Unit :=
  if name ∈ researchAgentModuleNames then .ok () else .error (.nameError name)

/-- `ResearchAgent.__init__`: evaluates `os.getenv(...)` while building the
client, so it first resolves the global name `os`. -/
def researchAgent_init : Except PyErr Unit := do
  let _os ← researchAgentResolve (pstr "os")
  pure ()

/-! ### `content_creator.py` -/

/-- One entry of `ContentCreator.platform_specs`. -/
structure PlatformSpec where
  max_length : Nat
  style : PyStr
  format : PyStr

/-- `ContentCreator.platform_specs` (all `max_length` values exceed 20,
which the truncation step subtracts). -/
def platform_specs : List (PyStr × PlatformSpec) :=
  [(pstr "Twitter",
    { max_length := 280
      style := pstr "concise, engaging, hashtag-friendly"
      format := pstr "tweet or thread" }),
   (pstr "LinkedIn",
    { max_length := 3000
      style := pstr "professional, informative, thought-leadership"
      format := pstr "article-style post" }),
   (pstr "Instagram",
    { max_length := 2200
      style := pstr "visual-first, storytelling, emoji-rich"
      format := pstr "caption with line breaks" }),
   (pstr "Blog Post",
    { max_length := 5000
      style := pstr "in-depth, well-structured, SEO-optimized"
      format := pstr "full blog article with sections" })]

/-- `self.platform_specs.get(platform)` (no default). -/
def platformSpecsGet (platform : PyStr) : Option PlatformSpec :=
  platform_specs.lookup platform

/-- The metadata dict of a `ContentRecord`; keys absent from a given
shape are `none`/`false`. -/
structure ContentMeta where
  platform : Option PyStr := none
  tone : Option PyStr := none
  generated_at : Option PyStr := none
  word_count : Option Nat := none
  char_count : Option Nat := none
  error : Option PyStr := none
  fallback : Bool := false

/-- The record returned by `generate_for_platform`. -/
structure ContentRecord where
  text : PyStr
  metadata : ContentMeta

/-- The research bundle dict as `generate_for_platform` reads it
(`.get` with defaults; `topic := none` models an absent key). -/
structure ResearchData where
  topic : Option PyStr := none
  key_insights : List PyStr := []
  sources : SourcesMap := []
  timestamp : Option PyStr := none

/-- `ContentCreator._post_process_content`: strip bold/underline markup off
non-blog platforms, truncate to the platform limit (minus a 20-character
buffer, plus `"..."`), then strip surrounding whitespace. -/
def post_process_content (content : PyStr) (platform : PyStr) : PyStr :=
  let content :=
    if platform ≠ pstr "Blog Post" then
      pyReplace (pstr "__") [] (pyReplace (pstr "**") [] content)
    else content
  let max_len := ((platformSpecsGet platform).map (·.max_length)).getD 5000
  let content :=
    if max_len < content.length then content.take (max_len - 20) ++ pstr "..."
    else content
  pyStrip content

/-- `ContentCreator._create_fallback_content`: deterministic templated text
per platform, built from the topic and the first insights. -/
def create_fallback_content (platform : PyStr) (topic : PyStr)
    (insights : List PyStr) : PyStr :=
  if platform = pstr "Twitter" then
    let hashtags :=
      pyJoin (pstr " ") (((pySplitWs topic).take 3).map (fun w => '#' :: w))
    let insight_text := insights.headD (pstr "Exploring exciting developments")
    pstr "🔥 " ++ insight_text ++ pstr "\n\n" ++ hashtags
  else if platform = pstr "LinkedIn" then
    pstr "Excited to share insights on " ++ topic ++ pstr "! 💡\n\nKey takeaways:\n"
      ++ pyJoin [ '\n' ] ((insights.take 3).map (fun i => pstr "• " ++ i))
      ++ pstr "\n\nWhat are your thoughts? Let's discuss in the comments!"
  else if platform = pstr "Instagram" then
    pstr "✨ " ++ topic ++ pstr " ✨\n\n"
      ++ insights.headD (pstr "Something interesting is happening...")
      ++ pstr "\n\n💭 What do you think?\n\n"
      ++ pyJoin (pstr " ") (((pySplitWs topic).take 5).map (fun w => '#' :: pyLower w))
  else  -- Blog Post
    pstr "# " ++ topic ++ pstr "\n\n## Introduction\n\n"
      ++ insights.headD (pstr "An exploration of " ++ topic)
      ++ pstr "\n\n## Key Points\n\n"
      ++ pyJoin [ '\n' ] ((insights.take 5).map (fun i => pstr "- " ++ i))
      ++ pstr "\n\n## Conclusion\n\nThese insights highlight the importance of "
      ++ topic ++ pstr "."

/-- The fixed record returned when no research data / topic is present. -/
def noResearchRecord : ContentRecord :=
  { text := pstr "Please complete research first to generate content."
    metadata := { error := some (pstr "No research data") } }

/-- `ContentCreator.generate_for_platform`.  `research_data = none` models
a falsy (`None`/empty) bundle; `modelOutcome` is the outcome of the
`chat.completions.create` call.  The context and prompt builders
(`_build_context`, `_create_content_prompt`) only feed that external call,
so they do not appear in the observable result. -/
def generate_for_platform (research_data : Option ResearchData)
    (platform tone : PyStr) (modelOutcome : Except PyErr PyStr) : ContentRecord :=
  match research_data with
  | none => noResearchRecord
  | some rd =>
    match rd.topic with
    | none => noResearchRecord
    | some topic =>
      if topic = [] then noResearchRecord
      else
        let insights := rd.key_insights
        match modelOutcome with
        | .ok reply =>
          let content_text := post_process_content reply platform
          { text := content_text
            metadata :=
              { platform := some platform
                tone := some tone
                generated_at := some (rd.timestamp.getD [])
                word_count := some (pySplitWs content_text).length
                char_count := some content_text.length } }
        | .error e =>
          { text := create_fallback_content platform topic insights
            metadata := { error := some (pyErrStr e), fallback := true } }

/-! ### `analytics_agent.py` -/

/-- Per-platform aggregates inside `performance_insights["platforms"]`.
Engagement rates are modelled as rationals (the code only compares them). -/
structure PlatStats where
  post_count : Nat := 0
  avg_engagement : ℚ := 0
  max_engagement : ℚ := 0
  min_engagement : ℚ := 0

/-- The dict produced by `_analyze_historical_performance`, as
`_generate_recommendations` reads it. -/
structure PerformanceInsights where
  has_data : Bool
  total_posts : Nat := 0
  platforms : List (PyStr × PlatStats) := []
  message : Option PyStr := none

/-- The dict produced by `_get_ai_trend_analysis`, as
`_generate_recommendations` reads it (fields it `.get`s). -/
structure TrendAnalysis where
  summary : PyStr := []
  trends : List PyStr := []
  opportunities : List PyStr := []

/-- Python `max(platforms.items(), key=lambda x: x[1].get("avg_engagement", 0))`:
the first item attaining the maximal key wins ties; `none` on an empty dict
(where Python would raise, guarded by the caller). -/
def bestPlatform : List (PyStr × PlatStats) → Option (PyStr × PlatStats)
  | [] => none
  | x :: rest =>
    some (rest.foldl
      (fun b y => if b.2.avg_engagement < y.2.avg_engagement then y else b) x)

/-- The markdown-fence stripping shared by the analytics parsers:
`content.split("```json")[1].split("```")[0]` when a `json` fence is
present, else `content.split("```")[1].split("```")[0]` when a bare fence
is present (the indexed element exists whenever the separator occurs). -/
def stripCodeFence (content : PyStr) : PyStr :=
  if pyContains content (pstr "```json") then
    (pySplitSub (pstr "```") ((pySplitSub (pstr "```json") content).getD 1 [])).getD 0 []
  else if pyContains content (pstr "```") then
    (pySplitSub (pstr "```") ((pySplitSub (pstr "```") content).getD 1 [])).getD 0 []
  else content

/-- The line-by-line fallback of `_get_ai_recommendations`:
split into lines, strip `- •123456789.` markers and whitespace, keep
lines longer than 20 characters, first 5. -/
def aiRecsLineFallback (content : PyStr) : List PyStr :=
  let lines := ((content.splitOn '\n').filter (fun l => pyStrip l ≠ [])).map
    (fun l => pyStrip (pyStripChars (pstr "- •123456789.") l))
  (lines.filter (fun l => 20 < l.length)).take 5

/-- `AnalyticsAgent._get_ai_recommendations`.  `outcome` is the model call;
on a raised error the function returns `[]`.  A parsed JSON array is
returned as-is (its elements need not be strings); any other reply falls
back to line parsing of the fence-stripped text (the reassignment of
`content` inside the `try` persists into the fallback). -/
def get_ai_recommendations (_topic : PyStr) (_performance_insights : PerformanceInsights)
    (outcome : Except PyErr PyStr) : List Json :=
  match outcome with
  | .error _e => []
  | .ok content =>
    let content := stripCodeFence content
    match jsonLoads (pyStrip content) with
    | some (.arr recs) => recs
    | _ => (aiRecsLineFallback content).map .str

/-- The `🎯` best-platform callout line. -/
def bestPlatformCallout (platformName : PyStr) : PyStr :=
  pstr "🎯 " ++ pyTitle platformName
    ++ pstr " shows highest engagement - prioritize this platform"

/-- `AnalyticsAgent._generate_recommendations`: the assembled list, in
program order, capped at 10.  `aiOutcome` is the model call made inside
`_get_ai_recommendations`. -/
def generate_recommendations (topic : PyStr)
    (performance_insights : PerformanceInsights) (trend_analysis : TrendAnalysis)
    (aiOutcome : Except PyErr PyStr) : List Json :=
  let recommendations : List Json :=
    if trend_analysis.opportunities ≠ [] then
      (trend_analysis.opportunities.take 2).map (fun opp => .str (pstr "💡 " ++ opp))
    else []
  let recommendations := recommendations ++
    (if performance_insights.has_data then
      -- `if platforms:` guard: `bestPlatform` is `none` exactly on an empty dict
      (match bestPlatform performance_insights.platforms with
       | some best_platform => [.str (bestPlatformCallout best_platform.1)]
       | none => [])
      ++ [.str (pstr "📊 Test different posting times to optimize reach")]
    else
      [.str (pstr "📈 Start tracking performance metrics to optimize future content")])
  let recommendations := recommendations ++
    [.str (pstr "🔍 Focus content on these trends: "
      ++ pyJoin (pstr ", ") (trend_analysis.trends.take 2))]
  let recommendations := recommendations ++
    [.str (pstr "⏰ Post during peak engagement hours for your target platform"),
     .str (pstr "🖼️ Always include high-quality visuals for 2x more engagement")]
  let ai_recs := get_ai_recommendations topic performance_insights aiOutcome
  let recommendations := recommendations ++ ai_recs.take 3
  recommendations.take 10

/-! ### Definitions written from the spec's words, for comparison -/

/-- Modelled from the spec: the Insight Synthesizer parsing policy as the
spec states it — (a) strip a markdown code fence if present, (b) attempt a
strict JSON-array parse, (c) on failure split the raw reply into lines and
strip leading bullet/number markers, capped at 7.  (`extract_insights`
itself is compared against this.) -/
def specChainParse (content : PyStr) : List Json :=
  let stripped := stripCodeFence content
  match jsonLoads (pyStrip stripped) with
  | some (.arr xs) => xs.take 7
  | _ =>
    (((content.splitOn '\n').filter (fun l => pyStrip l ≠ [])).map
      (fun l => Json.str (pyStrip (pyStripChars (pstr "- •0123456789.") l)))).take 7

/-- Modelled from the spec: the recommendation assembly order the claim
states — AI opportunities (max 2), a best-performing-platform callout,
two static best-practice tips, up to 3 AI tactical recommendations,
capped at 10. -/
def claimedRecommendationOrder (performance_insights : PerformanceInsights)
    (trend_analysis : TrendAnalysis) (ai_recs : List Json) : List Json :=
  (((trend_analysis.opportunities.take 2).map (fun opp => Json.str (pstr "💡 " ++ opp)))
    ++ (match bestPlatform performance_insights.platforms with
        | some best_platform => [Json.str (bestPlatformCallout best_platform.1)]
        | none => [])
    ++ [Json.str (pstr "⏰ Post during peak engagement hours for your target platform"),
        Json.str (pstr "🖼️ Always include high-quality visuals for 2x more engagement")]
    ++ ai_recs.take 3).take 10

/-! ### General lemmas -/

theorem length_dropWhile_le (p : Char → Bool) (l : PyStr) :
    (l.dropWhile p).length ≤ l.length := by
  induction l with
  | nil => simp [List.dropWhile]
  | cons c rest ih =>
    simp only [List.dropWhile]
    split
    · exact Nat.le_succ_of_le ih
    · simp

theorem pyStripP_length_le (p : Char → Bool) (s : PyStr) :
    (pyStripP p s).length ≤ s.length := by
  unfold pyStripP
  calc ((s.dropWhile p).reverse.dropWhile p).reverse.length
      = ((s.dropWhile p).reverse.dropWhile p).length := List.length_reverse _
    _ ≤ (s.dropWhile p).reverse.length := length_dropWhile_le _ _
    _ = (s.dropWhile p).length := List.length_reverse _
    _ ≤ s.length := length_dropWhile_le _ _

theorem pyStrip_length_le (s : PyStr) : (pyStrip s).length ≤ s.length :=
  pyStripP_length_le _ s

theorem length_take_le {α : Type} (n : Nat) (l : List α) : (l.take n).length ≤ n := by
  rw [List.length_take]; exact Nat.min_le_left _ _

/-! ### Claim theorems -/

/-- C10: constructing a `ResearchAgent` always raises a `NameError`,
because `__init__` evaluates `os.getenv` while `research_agent.py` never
imports `os`; construction never succeeds, so no method of the agent is
reachable through normal construction. -/
theorem C10_init_raises_name_error :
    researchAgent_init = .error (.nameError (pstr "os")) := by rfl

/-- C2 (code bug evaluation): when the model reply is valid JSON that is
not an array — here the JSON string `"hello"` — `extract_insights` falls
through its `isinstance` check and returns Python `None` (modelled `.ok
none`) instead of a list of at most 7 strings. -/
theorem C2_code_bug_eval :
    extract_insights [] (.ok (pstr "\"hello\"")) = .ok none ∧
    jsonLoads (pstr "\"hello\"") = some (.str (pstr "hello")) :=
  ⟨rfl, rfl⟩

/-- C9: for every platform, tone and model outcome, a falsy research
bundle or an absent/empty topic yields the fixed "complete research first"
record, whose metadata carries the error flag; the result does not depend
on the model outcome, so no model call is observable. -/
theorem C9_empty_topic_fixed_record (research_data : Option ResearchData)
    (platform tone : PyStr) (modelOutcome : Except PyErr PyStr)
    (h : research_data = none ∨
      ∃ rd, research_data = some rd ∧ (rd.topic = none ∨ rd.topic = some [])) :
    generate_for_platform research_data platform tone modelOutcome = noResearchRecord ∧
    noResearchRecord.metadata.error = some (pstr "No research data") := by
  refine ⟨?_, rfl⟩
  rcases h with h | ⟨rd, hrd, htopic⟩
  · rw [h]; rfl
  · rw [hrd]
    rcases htopic with ht | ht <;> simp [generate_for_platform, ht]

/-- C9 witness: a concrete empty-topic bundle, on Instagram with a model
outcome that would otherwise succeed. -/
theorem C9_empty_topic_fixed_record_witness :
    generate_for_platform (some { topic := some [] }) (pstr "Instagram")
      (pstr "witty") (.ok (pstr "reply")) = noResearchRecord ∧
    noResearchRecord.metadata.error = some (pstr "No research data") :=
  C9_empty_topic_fixed_record (some { topic := some [] }) (pstr "Instagram")
    (pstr "witty") (.ok (pstr "reply"))
    (Or.inr ⟨{ topic := some [] }, rfl, Or.inr rfl⟩)

theorem kgNodesOfItems_length (st : PyStr) (items : List SourceItem) (n : Nat) :
    (kgNodesOfItems st items n).length = items.length := by
  induction items generalizing n with
  | nil => rfl
  | cons item rest ih => simp [kgNodesOfItems, ih]

theorem kgNodesOfItems_ids (st : PyStr) (items : List SourceItem) (n : Nat) :
    (kgNodesOfItems st items n).map KGNode.id = List.range' n items.length := by
  induction items generalizing n with
  | nil => rfl
  | cons item rest ih => simp [kgNodesOfItems, List.range'_succ, ih]

theorem kgNodes_ids (l : SourcesMap) (n : Nat) :
    (kgNodes l n).map KGNode.id = List.range' n (kgNodes l n).length := by
  induction l generalizing n with
  | nil => rfl
  | cons kv rest ih =>
    obtain ⟨st, items⟩ := kv
    simp only [kgNodes, List.map_append, List.length_append,
      kgNodesOfItems_ids, kgNodesOfItems_length, ih]
    have := List.range'_append n (items.take 5).length (kgNodes rest (n + (items.take 5).length)).length 1
    simp only [Nat.one_mul] at this
    rw [this, Nat.add_comm]

/-- C7: the knowledge-graph node list is a deterministic function of the
`sources` mapping alone — two calls (with whatever clock timestamps) yield
identical node lists — and the ids are exactly `0, 1, 2, ...` in order
(monotonically increasing from 0). -/
theorem C7_knowledge_graph_idempotent (sources : SourcesMap) (t1 t2 : PyStr) :
    (create_knowledge_graph sources t1).nodes = (create_knowledge_graph sources t2).nodes ∧
    (create_knowledge_graph sources t1).nodes.map KGNode.id =
      List.range (create_knowledge_graph sources t1).nodes.length := by
  refine ⟨rfl, ?_⟩
  show (kgNodes sources 0).map KGNode.id = List.range (kgNodes sources 0).length
  rw [kgNodes_ids, List.range_eq_range']

theorem kgNodes_length_le (l : SourcesMap) (n : Nat) :
    (kgNodes l n).length ≤ 5 * l.length := by
  induction l generalizing n with
  | nil => simp [kgNodes]
  | cons kv rest ih =>
    obtain ⟨st, items⟩ := kv
    simp only [kgNodes, List.length_append, kgNodesOfItems_length, List.length_cons]
    have h1 : (items.take 5).length ≤ 5 := length_take_le 5 items
    have h2 := ih (n + (items.take 5).length)
    omega

/-- C8: the node list has at most 5 nodes per source kind, so its length
is at most 5 times the number of distinct source kinds present (for a dict,
the keys are distinct, stated as the `Nodup` hypothesis). -/
theorem C8_nodes_bounded (sources : SourcesMap) (now : PyStr)
    (h : (sources.map Prod.fst).Nodup) :
    (create_knowledge_graph sources now).nodes.length ≤
      5 * (sources.map Prod.fst).dedup.length := by
  rw [List.Nodup.dedup h, List.length_map]
  exact kgNodes_length_le sources 0

/-- C8 witness: two source kinds, one holding 7 items (only 5 become
nodes) and one holding 1 item: 6 nodes ≤ 5 × 2. -/
theorem C8_nodes_bounded_witness :
    (([(pstr "arxiv", List.replicate 7 ({} : SourceItem)),
       (pstr "web", [{ title := some (pstr "t") }])] : SourcesMap).map Prod.fst).Nodup ∧
    (create_knowledge_graph
      [(pstr "arxiv", List.replicate 7 ({} : SourceItem)),
       (pstr "web", [{ title := some (pstr "t") }])] (pstr "2024-01-01")).nodes.length ≤
      5 * (([(pstr "arxiv", List.replicate 7 ({} : SourceItem)),
             (pstr "web", [{ title := some (pstr "t") }])] : SourcesMap).map Prod.fst).dedup.length :=
  ⟨by decide, C8_nodes_bounded _ (pstr "2024-01-01") (by decide)⟩

/-- C6: each connector returns at most `max_results` items — the underlying
library yields at most that many raw results, stated as a hypothesis on the
transport outcome — and a raised transport/parsing error is caught, the
connector returning the empty list instead of propagating it. -/
theorem C6_connectors_bounded_and_total (q : PyStr) (N : Nat)
    (pap : Except PyErr (List ArxivPaper)) (web yt : Except PyErr (List DDGResult))
    (hp : ∀ l, pap = .ok l → l.length ≤ N)
    (hw : ∀ l, web = .ok l → l.length ≤ N)
    (hy : ∀ l, yt = .ok l → l.length ≤ N) :
    (search_arxiv q N pap).length ≤ N ∧
    (search_web q N web).length ≤ N ∧
    (search_youtube q N yt).length ≤ N ∧
    (∀ e, pap = .error e → search_arxiv q N pap = []) ∧
    (∀ e, web = .error e → search_web q N web = []) ∧
    (∀ e, yt = .error e → search_youtube q N yt = []) := by
  refine ⟨?_, ?_, ?_, ?_, ?_, ?_⟩
  · cases pap with
    | error e => simp [search_arxiv]
    | ok l => simpa [search_arxiv] using hp l rfl
  · cases web with
    | error e => simp [search_web]
    | ok l => simpa [search_web] using hw l rfl
  · cases yt with
    | error e => simp [search_youtube]
    | ok l => simpa [search_youtube] using hy l rfl
  · intro e he; rw [he]; rfl
  · intro e he; rw [he]; rfl
  · intro e he; rw [he]; rfl

/-- C6 witness: `max_results = 2`, a successful arxiv transport with one
paper, a failing web transport, and a successful youtube transport with
two results. -/
theorem C6_connectors_bounded_and_total_witness :
    (search_arxiv (pstr "q") 2
        (.ok [⟨pstr "T", [pstr "A"], pstr "S", pstr "2024", pstr "u", []⟩])).length ≤ 2 ∧
    (search_web (pstr "q") 2 (.error (.callError (pstr "net")))).length ≤ 2 ∧
    (search_youtube (pstr "q") 2 (.ok [{ title := some (pstr "v1") }, {}])).length ≤ 2 ∧
    (∀ e, (.ok [⟨pstr "T", [pstr "A"], pstr "S", pstr "2024", pstr "u", []⟩] :
        Except PyErr (List ArxivPaper)) = .error e →
      search_arxiv (pstr "q") 2
        (.ok [⟨pstr "T", [pstr "A"], pstr "S", pstr "2024", pstr "u", []⟩]) = []) ∧
    (∀ e, (.error (.callError (pstr "net")) : Except PyErr (List DDGResult)) = .error e →
      search_web (pstr "q") 2 (.error (.callError (pstr "net"))) = []) ∧
    (∀ e, (.ok [{ title := some (pstr "v1") }, {}] : Except PyErr (List DDGResult)) = .error e →
      search_youtube (pstr "q") 2 (.ok [{ title := some (pstr "v1") }, {}]) = []) :=
  C6_connectors_bounded_and_total (pstr "q") 2
    (.ok [⟨pstr "T", [pstr "A"], pstr "S", pstr "2024", pstr "u", []⟩])
    (.error (.callError (pstr "net")))
    (.ok [{ title := some (pstr "v1") }, {}])
    (fun l hl => by cases hl; decide)
    (fun l hl => by cases hl)
    (fun l hl => by cases hl; decide)

/-- C1 counterexample: for the fenced reply `'```json\n["A", "B"]\n```'`
the spec's chain (fence strip, then JSON parse) yields `["A", "B"]`, but
`extract_insights` has no fence-stripping step: the strict parse fails on
the backticks and line-splitting returns the three raw lines.  Moreover a
whitespace-only (non-JSON) reply yields the empty list, against the
claimed non-emptiness. -/
theorem C1_counterexample :
    specChainParse (pstr "```json\n[\"A\", \"B\"]\n```") =
      [Json.str (pstr "A"), Json.str (pstr "B")] ∧
    extract_insights [] (.ok (pstr "```json\n[\"A\", \"B\"]\n```")) =
      .ok (some [Json.str (pstr "```json"), Json.str (pstr "[\"A\", \"B\"]"),
                 Json.str (pstr "```")]) ∧
    extract_insights [] (.ok (pstr "```json\n[\"A\", \"B\"]\n```")) ≠
      .ok (some (specChainParse (pstr "```json\n[\"A\", \"B\"]\n```"))) ∧
    extract_insights [] (.ok (pstr " ")) = .ok (some []) := by
  refine ⟨rfl, rfl, ?_, rfl⟩
  intro h
  have h2 := congrArg (fun x => match x with
    | Except.ok (some l) => l.length
    | _ => 0) h
  exact absurd (h2 : (3 : Nat) = 2) (by decide)

/-- C1 (amended): for every reply on which the strict JSON parse fails —
which is where all malformed replies land, fenced JSON included, since
`extract_insights` has no fence-stripping step — the function splits the
raw reply into lines, strips `'-'`, `' '` and `'•'` characters from both
ends of each non-blank line (digit markers are not stripped), caps the
result at 7, and returns without raising; every element is a string, and
the result is non-empty whenever the reply contains a non-blank line. -/
theorem C1_malformed_reply_line_split (sources : SourcesMap) (contents : List PyStr)
    (content : PyStr) (hdig : allContent sources = .ok contents)
    (hmal : jsonLoads content = none) :
    extract_insights sources (.ok content) =
      .ok (some (((lineSplitInsights content).map Json.str).take 7)) ∧
    (((lineSplitInsights content).map Json.str).take 7).length ≤ 7 ∧
    (∀ x ∈ ((lineSplitInsights content).map Json.str).take 7, ∃ s, x = Json.str s) ∧
    ((∃ l ∈ content.splitOn '\n', pyStrip l ≠ []) →
      ((lineSplitInsights content).map Json.str).take 7 ≠ []) := by
  refine ⟨?_, length_take_le 7 _, ?_, ?_⟩
  · simp [extract_insights, hdig, hmal]
  · intro x hx
    have hx' := List.take_subset 7 _ hx
    obtain ⟨s, _, rfl⟩ := List.mem_map.mp hx'
    exact ⟨_, rfl⟩
  · rintro ⟨l, hl, hne⟩
    have hmem : l ∈ (content.splitOn '\n').filter (fun l => pyStrip l ≠ []) :=
      List.mem_filter.mpr ⟨hl, by simpa using hne⟩
    have : lineSplitInsights content ≠ [] := by
      unfold lineSplitInsights
      intro hnil
      rw [List.map_eq_nil_iff] at hnil
      rw [hnil] at hmem
      exact List.not_mem_nil l hmem
    intro htake
    rcases hli : (lineSplitInsights content).map Json.str with _ | ⟨a, rest⟩
    · exact this (List.map_eq_nil_iff.mp hli)
    · rw [hli] at htake
      simp [List.take] at htake

/-- C1 amended witness: two bulleted lines; the reply is not JSON, and the
parser returns the two cleaned lines. -/
theorem C1_malformed_reply_line_split_witness :
    (extract_insights [] (.ok (pstr "- alpha\n- beta")) =
      .ok (some (((lineSplitInsights (pstr "- alpha\n- beta")).map Json.str).take 7)) ∧
    (((lineSplitInsights (pstr "- alpha\n- beta")).map Json.str).take 7).length ≤ 7 ∧
    (∀ x ∈ ((lineSplitInsights (pstr "- alpha\n- beta")).map Json.str).take 7,
      ∃ s, x = Json.str s) ∧
    ((∃ l ∈ (pstr "- alpha\n- beta").splitOn '\n', pyStrip l ≠ []) →
      ((lineSplitInsights (pstr "- alpha\n- beta")).map Json.str).take 7 ≠ [])) ∧
    ((lineSplitInsights (pstr "- alpha\n- beta")).map Json.str).take 7 =
      [Json.str (pstr "alpha"), Json.str (pstr "beta")] :=
  ⟨C1_malformed_reply_line_split [] [] (pstr "- alpha\n- beta") rfl rfl, rfl⟩

theorem maxLen_lower (platform : PyStr) :
    280 ≤ ((platformSpecsGet platform).map (·.max_length)).getD 5000 := by
  unfold platformSpecsGet platform_specs
  simp only [List.lookup]
  repeat' split
  all_goals simp

/-- The post-processing step always returns text within the limit the
function itself looks up (configured limit, or the 5000 default). -/
theorem post_process_length_le (content platform : PyStr) :
    (post_process_content content platform).length ≤
      ((platformSpecsGet platform).map (·.max_length)).getD 5000 := by
  have hm := maxLen_lower platform
  unfold post_process_content
  set m := ((platformSpecsGet platform).map (·.max_length)).getD 5000 with hmdef
  set c1 := if platform ≠ pstr "Blog Post" then
      pyReplace (pstr "__") [] (pyReplace (pstr "**") [] content)
    else content with hc1
  show (pyStrip (if m < c1.length then c1.take (m - 20) ++ pstr "..." else c1)).length ≤ m
  by_cases h : m < c1.length
  · rw [if_pos h]
    have h1 : (pyStrip (c1.take (m - 20) ++ pstr "...")).length ≤
        (c1.take (m - 20) ++ pstr "...").length := pyStrip_length_le _
    have h2 : (c1.take (m - 20)).length ≤ m - 20 := length_take_le _ _
    have h3 : (c1.take (m - 20) ++ pstr "...").length =
        (c1.take (m - 20)).length + 3 := by
      rw [List.length_append]; rfl
    omega
  · rw [if_neg h]
    have h1 : (pyStrip c1).length ≤ c1.length := pyStrip_length_le _
    omega

set_option maxRecDepth 16000 in
/-- C3 counterexample: on the model-failure path the fallback text is not
truncated — with a 300-character first insight, the Twitter record's text
has 307 characters, above the configured 280. -/
theorem C3_counterexample :
    (platformSpecsGet (pstr "Twitter")).map (·.max_length) = some 280 ∧
    280 < (generate_for_platform
      (some { topic := some (pstr "ai"), key_insights := [List.replicate 300 'x'] })
      (pstr "Twitter") (pstr "casual")
      (.error (.callError (pstr "boom")))).text.length := by
  refine ⟨rfl, ?_⟩
  have h : (generate_for_platform
      (some { topic := some (pstr "ai"), key_insights := [List.replicate 300 'x'] })
      (pstr "Twitter") (pstr "casual")
      (.error (.callError (pstr "boom")))).text.length = 307 := by rfl
  omega

/-- C3 (amended): on the model-success path (and on the no-research path,
whose fixed message is short), the returned text is truncated to at most
the platform's configured `max_length`; the model-failure fallback path is
exempt (see the counterexample). -/
theorem C3_success_path_truncated (research_data : Option ResearchData)
    (platform tone reply : PyStr) (spec : PlatformSpec)
    (hspec : platformSpecsGet platform = some spec) :
    (generate_for_platform research_data platform tone (.ok reply)).text.length ≤
      spec.max_length := by
  have hb := post_process_length_le reply platform
  have hm := maxLen_lower platform
  rw [hspec] at hb hm
  simp only [Option.map_some', Option.getD_some] at hb hm
  have herr : noResearchRecord.text.length ≤ 280 := by decide
  cases research_data with
  | none => simp only [generate_for_platform]; omega
  | some rd =>
    cases htop : rd.topic with
    | none => simp only [generate_for_platform, htop]; omega
    | some t =>
      by_cases hte : t = []
      · simp only [generate_for_platform, htop, if_pos hte]; omega
      · simp only [generate_for_platform, htop, if_neg hte]
        exact hb

/-- C3 amended witness: Twitter (max 280), a successful model call. -/
theorem C3_success_path_truncated_witness :
    platformSpecsGet (pstr "Twitter") =
      some ⟨280, pstr "concise, engaging, hashtag-friendly", pstr "tweet or thread"⟩ ∧
    (generate_for_platform (some { topic := some (pstr "ai") }) (pstr "Twitter")
      (pstr "casual") (.ok (pstr "hello"))).text.length ≤ 280 :=
  ⟨rfl, C3_success_path_truncated (some { topic := some (pstr "ai") })
    (pstr "Twitter") (pstr "casual") (pstr "hello")
    ⟨280, pstr "concise, engaging, hashtag-friendly", pstr "tweet or thread"⟩ rfl⟩

/-- C4 counterexample: with the two-word topic `"quantum computing"` and a
failing model call, the Twitter fallback text is
`🔥 Some insight\n\n#quantum #computing`: it carries hashtag tokens built
from the topic's words but does not contain the topic string itself (a
`" #"` separates the words), against the claim. -/
theorem C4_counterexample :
    (generate_for_platform
      (some { topic := some (pstr "quantum computing"),
              key_insights := [pstr "Some insight"] })
      (pstr "Twitter") (pstr "professional")
      (.error (.callError (pstr "down")))).text =
      pstr "🔥 Some insight\n\n#quantum #computing" ∧
    pyContains (generate_for_platform
      (some { topic := some (pstr "quantum computing"),
              key_insights := [pstr "Some insight"] })
      (pstr "Twitter") (pstr "professional")
      (.error (.callError (pstr "down")))).text (pstr "quantum computing") = false ∧
    (generate_for_platform
      (some { topic := some (pstr "quantum computing"),
              key_insights := [pstr "Some insight"] })
      (pstr "Twitter") (pstr "professional")
      (.error (.callError (pstr "down")))).metadata.fallback = true :=
  ⟨rfl, rfl, rfl⟩

/-- C4 (amended): for every non-empty topic and insights list, when the
platform is Twitter and the model call raises, the returned text is the
fixed fallback template — first insight (or a default), then hashtag tokens
built from the first 3 whitespace-separated words of the topic (hence at
most 3 such tokens) — and `metadata.fallback` is `true`.  The topic string
itself need not appear (see the counterexample). -/
theorem C4_twitter_fallback_hashtags (topic : PyStr) (insights : List PyStr)
    (tone : PyStr) (e : PyErr) (srcs : SourcesMap) (ts : Option PyStr)
    (h : topic ≠ []) :
    (generate_for_platform (some { topic := some topic, key_insights := insights,
                                   sources := srcs, timestamp := ts })
        (pstr "Twitter") tone (.error e)).text =
      pstr "🔥 " ++ insights.headD (pstr "Exploring exciting developments")
        ++ pstr "\n\n"
        ++ pyJoin (pstr " ") (((pySplitWs topic).take 3).map (fun w => '#' :: w)) ∧
    ((pySplitWs topic).take 3).length ≤ 3 ∧
    (generate_for_platform (some { topic := some topic, key_insights := insights,
                                   sources := srcs, timestamp := ts })
        (pstr "Twitter") tone (.error e)).metadata.fallback = true := by
  refine ⟨?_, length_take_le 3 _, ?_⟩
  · simp only [generate_for_platform, if_neg h]
    rfl
  · simp only [generate_for_platform, if_neg h]

/-- C4 amended witness: topic `"quantum computing"`, no insights. -/
theorem C4_twitter_fallback_hashtags_witness :
    ((generate_for_platform (some { topic := some (pstr "quantum computing"),
                                    key_insights := [], sources := [], timestamp := none })
        (pstr "Twitter") (pstr "casual") (.error (.callError (pstr "down")))).text =
      pstr "🔥 " ++ ([] : List PyStr).headD (pstr "Exploring exciting developments")
        ++ pstr "\n\n"
        ++ pyJoin (pstr " ")
            (((pySplitWs (pstr "quantum computing")).take 3).map (fun w => '#' :: w)) ∧
    ((pySplitWs (pstr "quantum computing")).take 3).length ≤ 3 ∧
    (generate_for_platform (some { topic := some (pstr "quantum computing"),
                                   key_insights := [], sources := [], timestamp := none })
        (pstr "Twitter") (pstr "casual")
        (.error (.callError (pstr "down")))).metadata.fallback = true) :=
  C4_twitter_fallback_hashtags (pstr "quantum computing") [] (pstr "casual")
    (.callError (pstr "down")) [] none (by decide)

/-- C5 counterexample: with one opportunity, historical data for one
platform, one trend, and one AI recommendation, the code assembles 7
entries — a posting-times tip and a trends-focus line sit between the
callout and the two static tips — while the claimed order yields 5. -/
theorem C5_counterexample :
    generate_recommendations (pstr "ai")
      { has_data := true, platforms := [(pstr "twitter", { avg_engagement := 5 })] }
      { trends := [pstr "T1"], opportunities := [pstr "Opp1"] }
      (.ok (pstr "[\"Rec one\"]")) =
      [Json.str (pstr "💡 Opp1"),
       Json.str (pstr "🎯 Twitter shows highest engagement - prioritize this platform"),
       Json.str (pstr "📊 Test different posting times to optimize reach"),
       Json.str (pstr "🔍 Focus content on these trends: T1"),
       Json.str (pstr "⏰ Post during peak engagement hours for your target platform"),
       Json.str (pstr "🖼️ Always include high-quality visuals for 2x more engagement"),
       Json.str (pstr "Rec one")] ∧
    generate_recommendations (pstr "ai")
      { has_data := true, platforms := [(pstr "twitter", { avg_engagement := 5 })] }
      { trends := [pstr "T1"], opportunities := [pstr "Opp1"] }
      (.ok (pstr "[\"Rec one\"]")) ≠
    claimedRecommendationOrder
      { has_data := true, platforms := [(pstr "twitter", { avg_engagement := 5 })] }
      { trends := [pstr "T1"], opportunities := [pstr "Opp1"] }
      (get_ai_recommendations (pstr "ai")
        { has_data := true, platforms := [(pstr "twitter", { avg_engagement := 5 })] }
        (.ok (pstr "[\"Rec one\"]"))) := by
  refine ⟨rfl, ?_⟩
  intro h
  have h2 := congrArg List.length h
  exact absurd (h2 : (7 : Nat) = 5) (by decide)

/-- C5 (amended): the recommendation list is assembled in this fixed
order — AI opportunities (max 2, `💡`-prefixed); then, when historical
data is present, the best-platform callout (for a non-empty platform dict)
followed by a posting-times tip, else a start-tracking tip; then a
trends-focus line; then the two static best-practice tips; then up to 3
AI recommendations — capped at 10.  (The claim omitted the posting-times /
start-tracking tip and the trends-focus line.) -/
theorem C5_assembly_order (topic : PyStr) (pi : PerformanceInsights)
    (ta : TrendAnalysis) (aiOutcome : Except PyErr PyStr) :
    generate_recommendations topic pi ta aiOutcome =
      ((if ta.opportunities ≠ [] then
          (ta.opportunities.take 2).map (fun opp => Json.str (pstr "💡 " ++ opp))
        else [])
       ++ ((if pi.has_data then
            (match bestPlatform pi.platforms with
             | some bp => [Json.str (bestPlatformCallout bp.1)]
             | none => [])
            ++ [Json.str (pstr "📊 Test different posting times to optimize reach")]
          else
            [Json.str (pstr "📈 Start tracking performance metrics to optimize future content")])
       ++ ([Json.str (pstr "🔍 Focus content on these trends: "
            ++ pyJoin (pstr ", ") (ta.trends.take 2))]
       ++ ([Json.str (pstr "⏰ Post during peak engagement hours for your target platform"),
           Json.str (pstr "🖼️ Always include high-quality visuals for 2x more engagement")]
       ++ (get_ai_recommendations topic pi aiOutcome).take 3)))).take 10 ∧
    (generate_recommendations topic pi ta aiOutcome).length ≤ 10 ∧
    (if ta.opportunities ≠ [] then
        (ta.opportunities.take 2).map (fun opp => Json.str (pstr "💡 " ++ opp))
      else []).length ≤ 2 ∧
    ((get_ai_recommendations topic pi aiOutcome).take 3).length ≤ 3 := by
  refine ⟨?_, ?_, ?_, length_take_le 3 _⟩
  · simp only [generate_recommendations, List.append_assoc]
  · simp only [generate_recommendations]
    exact length_take_le 10 _
  · split
    · calc ((ta.opportunities.take 2).map
            (fun opp => Json.str (pstr "💡 " ++ opp))).length
          = (ta.opportunities.take 2).length := List.length_map _ _
        _ ≤ 2 := length_take_le 2 _
    · simp
